import Mathlib

/-!
Verification development for the MinerU service (`src/main.py`).

The service has two non-trivial parts:

* `MyService.process` — decodes an input image, calls the extraction model,
  and normalizes each extracted block into a JSON object with fields
  `type`, `text`, `position` (pixel coordinates derived from the fractional
  bbox, or `null`).
* the `lifespan` startup/shutdown code — an `announce` coroutine that
  registers the service with every configured engine under a retry budget,
  and a shutdown loop that deregisters from every engine.

Numbers are modelled as rationals (`ℚ`): the Python code performs plain
float arithmetic on bbox fractions and integer pixel dimensions, and the
properties at stake are about the algebraic formulas, not float rounding.
External collaborators (PIL's image decoding, the MinerU extraction model,
the `common_code` HTTP helpers) are modelled as oracle parameters: the
code under verification only consumes their results.
-/

set_option autoImplicit false

namespace MinerU

/-- JSON values, as produced by the Python dict/list structures that
`process` builds and then passes to `json.dumps`.  Numbers are rationals. -/
inductive Json where
  | null : Json
  | num (q : ℚ) : Json
  | str (s : String) : Json
  | arr (elems : List Json) : Json
  | obj (fields : List (String × Json)) : Json

/-- First-match lookup in an association list of JSON object fields. -/
def lookupFields : List (String × Json) → String → Option Json
  | [], _ => none
  | (k, v) :: rest, key => if k == key then some v else lookupFields rest key

/-- Look up a field of a JSON object (first match), mirroring Python
`dict[key]` on the dicts that `process` builds.  Returns `none` when the
value is not an object or the key is missing. -/
def Json.lookup : Json → String → Option Json
  | Json.obj fields, key => lookupFields fields key
  | _, _ => none

/-- The keys of a JSON object, in order (the Python dict literal's keys). -/
def Json.keys : Json → List String
  | Json.obj fields => fields.map (fun f => f.1)
  | _ => []

/-- One raw block returned by `self._client.two_step_extract(image)`.
The code reads it with `block.get("type", "")`, `block.get("content", "")`
and `block.get("bbox", None)`, so each of those keys may be absent.
Per the model's output contract the bbox, when present, is a 4-tuple
`(left, top, right, bottom)` of fractions; a 4-tuple is always truthy in
Python, so `if bbox:` coincides with presence of the key.  `extra` holds
any further keys of the dict; the code never reads them. -/
structure RawBlock where
  type? : Option String
  content? : Option String
  bbox? : Option (ℚ × ℚ × ℚ × ℚ)
  extra : List (String × Json)

/-- The decoded raster image produced by `Image.open`: pixel dimensions
(`image.width`, `image.height`) plus opaque pixel data consumed only by
the extraction model. -/
structure DecodedImage where
  width : Nat
  height : Nat
  data : List Nat
deriving DecidableEq

/-- Errors of the `process` operation.  `decodeError` models the
exception `Image.open` raises when the bytes are not a valid image. -/
inductive ProcessError where
  | decodeError : ProcessError
deriving DecidableEq

/-- The body of the `for block in extracted_blocks` loop in
`MyService.process`: build `formatted_block` from one raw block and the
image's pixel dimensions.

```python
bbox = block.get("bbox", None)
if bbox:
    formatted_block = {
        "type": block.get("type", ""),
        "text": block.get("content", ""),
        "position": {
            "left": bbox[0] * image.width,
            "top": bbox[1] * image.height,
            "width": (bbox[2] - bbox[0]) * image.width,
            "height": (bbox[3] - bbox[1]) * image.height,
        }
    }
else:
    formatted_block = { ... "position": None }
```
-/
def formatBlock (width height : Nat) (block : RawBlock) : Json :=
  match block.bbox? with
  | some (l, t, r, b) =>
      Json.obj
        [("type", Json.str (block.type?.getD "")),
         ("text", Json.str (block.content?.getD "")),
         ("position",
          Json.obj
            [("left", Json.num (l * (width : ℚ))),
             ("top", Json.num (t * (height : ℚ))),
             ("width", Json.num ((r - l) * (width : ℚ))),
             ("height", Json.num ((b - t) * (height : ℚ)))])]
  | none =>
      Json.obj
        [("type", Json.str (block.type?.getD "")),
         ("text", Json.str (block.content?.getD "")),
         ("position", Json.null)]

/-- `MyService.process`.  `decode` stands for `Image.open(io.BytesIO(raw))`
(raising = `Except.error`), `extract` for `self._client.two_step_extract`.
On success the code returns a dict with the single key `"result"` holding
the JSON-serialized `{"boxes": formatted_extracted_blocks}`; we return
that field name together with the JSON value that gets serialized.  An
exception from `Image.open` is not caught anywhere in `process`, so it
propagates to the caller unchanged. -/
def process (decode : List Nat → Except ProcessError DecodedImage)
    (extract : DecodedImage → List RawBlock)
    (raw : List Nat) : Except ProcessError (String × Json) :=
  match decode raw with
  | Except.error e => Except.error e
  | Except.ok image =>
      Except.ok
        ("result",
         Json.obj
           [("boxes",
             Json.arr ((extract image).map (formatBlock image.width image.height)))])

/-- The configuration fields of `settings` read by `lifespan`:
the retry budget, the fixed inter-retry delay (opaque duration units),
and the static list of engine URLs. -/
structure AnnounceSettings where
  engine_announce_retries : Nat
  engine_announce_retry_delay : Nat
  engine_urls : List String
deriving DecidableEq, Repr

/-- Observable events of the `announce` coroutine, in program order:

* `attempt e ok` — one call `await service_service.announce_service(my_service, e)`
  with boolean outcome `ok`;
* `blockingSleep d` — one call `time.sleep(d)`.  `time.sleep` is a
  synchronous OS-level sleep: for its whole duration the event loop thread
  is occupied and no other coroutine can run;
* `warning n` — one `logger.warning(f"Aborting service announcement after
  {n} retries")` with `n = settings.engine_announce_retries`. -/
inductive AnnounceEvent where
  | attempt (engine : String) (success : Bool) : AnnounceEvent
  | blockingSleep (duration : Nat) : AnnounceEvent
  | warning (retriesReported : Nat) : AnnounceEvent
deriving DecidableEq, Repr

/-- The inner `while not announced and retries > 0:` loop of `announce`
for one engine URL, run with `retries` attempts remaining.  `oracle e k`
is the boolean result of the `k`-th `announce_service` call for engine
`e` (the call is an external HTTP round-trip).  `total` is the constant
`settings.engine_announce_retries` reported in the warning message.
Returns the emitted events, the final `announced` flag and the final
value of `retries`.  Each iteration decrements `retries`, so `retries`
itself is the structural recursion measure:

```python
while not announced and retries > 0:
    announced = await service_service.announce_service(my_service, engine_url)
    retries -= 1
    if not announced:
        time.sleep(settings.engine_announce_retry_delay)
        if retries == 0:
            logger.warning(f"Aborting service announcement after {retries_total} retries")
```
-/
def announceLoop (oracle : String → Nat → Bool) (engine : String)
    (delay total : Nat) (k : Nat) : Nat → List AnnounceEvent × Bool × Nat
  | 0 => ([], false, 0)
  | r + 1 =>
    if oracle engine k then
      ([AnnounceEvent.attempt engine true], true, r)
    else
      let rest := announceLoop oracle engine delay total (k + 1) r
      (AnnounceEvent.attempt engine false :: AnnounceEvent.blockingSleep delay ::
         ((if r = 0 then [AnnounceEvent.warning total] else []) ++ rest.1),
       rest.2.1, rest.2.2)

/-- The outer `for engine_url in settings.engine_urls:` loop of `announce`.
Crucially, the running value of `retries` is threaded from one engine's
inner loop to the next: in the source, `retries` is initialized once
before the `for` loop, not per engine. -/
def announceGo (oracle : String → Nat → Bool) (delay total : Nat) :
    List String → Nat → List AnnounceEvent
  | [], _ => []
  | engine :: rest, retries =>
    let r := announceLoop oracle engine delay total 0 retries
    r.1 ++ announceGo oracle delay total rest r.2.2

/-- The whole `announce` coroutine body:

```python
retries = settings.engine_announce_retries
for engine_url in settings.engine_urls:
    announced = False
    while not announced and retries > 0:
        ...
```
-/
def announce (oracle : String → Nat → Bool) (s : AnnounceSettings) :
    List AnnounceEvent :=
  announceGo oracle s.engine_announce_retry_delay s.engine_announce_retries
    s.engine_urls s.engine_announce_retries

/-- Is this event a registration attempt against engine `e`? -/
def isAttemptOn (e : String) : AnnounceEvent → Bool
  | AnnounceEvent.attempt e2 _ => e2 == e
  | _ => false

/-- Number of registration attempts against engine `e` in a trace. -/
def attemptsOn (tr : List AnnounceEvent) (e : String) : Nat :=
  (tr.filter (isAttemptOn e)).length

/-- Is this event a registration attempt (against any engine)? -/
def isAttempt : AnnounceEvent → Bool
  | AnnounceEvent.attempt _ _ => true
  | _ => false

/-- Total number of registration attempts in a trace. -/
def totalAttempts (tr : List AnnounceEvent) : Nat :=
  (tr.filter isAttempt).length

/-- Is this event a warning-level diagnostic? -/
def isWarning : AnnounceEvent → Bool
  | AnnounceEvent.warning _ => true
  | _ => false

/-- Number of warning-level diagnostics in a trace. -/
def warningCount (tr : List AnnounceEvent) : Nat :=
  (tr.filter isWarning).length

/-- Observable events of the shutdown path of `lifespan`. -/
inductive ShutdownEvent where
  | dereg (engine : String) (success : Bool) : ShutdownEvent
  | logFailure (engine : String) : ShutdownEvent
deriving DecidableEq, Repr

/-- Modelled from the spec: `service_service.graceful_shutdown` lives in
the external `common_code` package, whose source is not part of this
repository.  Per the spec it performs exactly one best-effort
deregistration call for the given engine; a failure is logged and
ignored, never raised (`DeregistrationFailure: logged and ignored; never
blocks process exit`).  `ok e` is the outcome of the single
deregistration round-trip against engine `e`. -/
def gracefulShutdown (ok : String → Bool) (e : String) : List ShutdownEvent :=
  if ok e then [ShutdownEvent.dereg e true]
  else [ShutdownEvent.dereg e false, ShutdownEvent.logFailure e]

/-- The shutdown loop after `yield` in `lifespan`:

```python
for engine_url in settings.engine_urls:
    await service_service.graceful_shutdown(my_service, engine_url)
```
-/
def shutdownLoop (ok : String → Bool) : List String → List ShutdownEvent
  | [] => []
  | engine :: rest => gracefulShutdown ok engine ++ shutdownLoop ok rest

/-- The sequence of engines that received a deregistration attempt, in
order, one entry per `dereg` event. -/
def deregTargets (tr : List ShutdownEvent) : List String :=
  tr.filterMap (fun ev =>
    match ev with
    | ShutdownEvent.dereg e _ => some e
    | _ => none)

theorem attemptsOn_append (a b : List AnnounceEvent) (e : String) :
    attemptsOn (a ++ b) e = attemptsOn a e + attemptsOn b e := by
  simp [attemptsOn, List.filter_append]

theorem totalAttempts_append (a b : List AnnounceEvent) :
    totalAttempts (a ++ b) = totalAttempts a + totalAttempts b := by
  simp [totalAttempts, List.filter_append]

theorem warningCount_append (a b : List AnnounceEvent) :
    warningCount (a ++ b) = warningCount a + warningCount b := by
  simp [warningCount, List.filter_append]

theorem announceLoop_fail_flags (oracle : String → Nat → Bool) (e : String)
    (d N : Nat) (hf : ∀ k, oracle e k = false) (r : Nat) : ∀ k,
    (announceLoop oracle e d N k r).2.1 = false ∧
    (announceLoop oracle e d N k r).2.2 = 0 := by
  induction r with
  | zero => intro k; exact ⟨rfl, rfl⟩
  | succ r ih =>
    intro k
    simpa [announceLoop, hf k] using ih (k + 1)

theorem announceLoop_fail_attemptsOn (oracle : String → Nat → Bool) (e : String)
    (d N : Nat) (hf : ∀ k, oracle e k = false) (r : Nat) : ∀ k,
    attemptsOn (announceLoop oracle e d N k r).1 e = r := by
  induction r with
  | zero => intro k; rfl
  | succ r ih =>
    intro k
    rcases Nat.eq_zero_or_pos r with hr | hr
    · subst hr
      simp [announceLoop, hf k, attemptsOn, isAttemptOn]
    · have hr0 : r ≠ 0 := Nat.pos_iff_ne_zero.mp hr
      simp [announceLoop, hf k, hr0, attemptsOn, isAttemptOn] at *
      exact ih (k + 1)

theorem announceLoop_fail_warningCount (oracle : String → Nat → Bool) (e : String)
    (d N : Nat) (hf : ∀ k, oracle e k = false) (r : Nat) : ∀ k, 0 < r →
    warningCount (announceLoop oracle e d N k r).1 = 1 := by
  induction r with
  | zero => intro k h; exact absurd h (Nat.lt_irrefl 0)
  | succ r ih =>
    intro k _
    rcases Nat.eq_zero_or_pos r with hr | hr
    · subst hr
      simp [announceLoop, hf k, warningCount, isWarning]
    · have hr0 : r ≠ 0 := Nat.pos_iff_ne_zero.mp hr
      simp [announceLoop, hf k, hr0, warningCount, isWarning] at *
      exact ih (k + 1) hr

theorem announceLoop_fail_warning_mem (oracle : String → Nat → Bool) (e : String)
    (d N : Nat) (hf : ∀ k, oracle e k = false) (r : Nat) : ∀ k, 0 < r →
    AnnounceEvent.warning N ∈ (announceLoop oracle e d N k r).1 := by
  induction r with
  | zero => intro k h; exact absurd h (Nat.lt_irrefl 0)
  | succ r ih =>
    intro k _
    rcases Nat.eq_zero_or_pos r with hr | hr
    · subst hr
      simp [announceLoop, hf k]
    · have hr0 : r ≠ 0 := Nat.pos_iff_ne_zero.mp hr
      simp [announceLoop, hf k, hr0]
      exact ih (k + 1) hr

theorem announceLoop_fail_no_success (oracle : String → Nat → Bool) (e : String)
    (d N : Nat) (hf : ∀ k, oracle e k = false) (r : Nat) : ∀ k,
    AnnounceEvent.attempt e true ∉ (announceLoop oracle e d N k r).1 := by
  induction r with
  | zero => intro k h; exact absurd h (List.not_mem_nil _)
  | succ r ih =>
    intro k
    rcases Nat.eq_zero_or_pos r with hr | hr
    · subst hr
      simp [announceLoop, hf k]
    · have hr0 : r ≠ 0 := Nat.pos_iff_ne_zero.mp hr
      simp [announceLoop, hf k, hr0] at *
      exact ih (k + 1)

theorem announceLoop_attempts_add_remaining (oracle : String → Nat → Bool)
    (e : String) (d N : Nat) (r : Nat) : ∀ k,
    totalAttempts (announceLoop oracle e d N k r).1 +
      (announceLoop oracle e d N k r).2.2 = r := by
  induction r with
  | zero => intro k; rfl
  | succ r ih =>
    intro k
    cases h : oracle e k with
    | true =>
      simp [announceLoop, h, totalAttempts, isAttempt]
      omega
    | false =>
      rcases Nat.eq_zero_or_pos r with hr | hr
      · subst hr
        simp [announceLoop, h, totalAttempts, isAttempt]
      · have hr0 : r ≠ 0 := Nat.pos_iff_ne_zero.mp hr
        have := ih (k + 1)
        simp [announceLoop, h, hr0, totalAttempts, isAttempt] at *
        omega

theorem announceGo_zero (oracle : String → Nat → Bool) (d N : Nat) :
    ∀ urls, announceGo oracle d N urls 0 = [] := by
  intro urls
  induction urls with
  | nil => rfl
  | cons e rest ih => simpa [announceGo, announceLoop] using ih

theorem announceGo_totalAttempts_le (oracle : String → Nat → Bool) (d N : Nat) :
    ∀ urls retries, totalAttempts (announceGo oracle d N urls retries) ≤ retries := by
  intro urls
  induction urls with
  | nil => intro retries; simp [announceGo, totalAttempts]
  | cons e rest ih =>
    intro retries
    have h1 := announceLoop_attempts_add_remaining oracle e d N retries 0
    have h2 := ih (announceLoop oracle e d N 0 retries).2.2
    simp only [announceGo, totalAttempts_append]
    omega

theorem announceGo_success (oracle : String → Nat → Bool) (d N : Nat)
    (hs : ∀ e k, oracle e k = true) :
    ∀ urls retries, announceGo oracle d N urls retries =
      (urls.take retries).map (fun e => AnnounceEvent.attempt e true) := by
  intro urls
  induction urls with
  | nil => intro retries; simp [announceGo]
  | cons e rest ih =>
    intro retries
    cases retries with
    | zero => simp [announceGo, announceLoop, announceGo_zero oracle d N rest]
    | succ r => simp [announceGo, announceLoop, hs e 0, ih r]

theorem attemptsOn_map_success (e0 : String) :
    ∀ l : List String, e0 ∉ l →
      attemptsOn (l.map (fun e => AnnounceEvent.attempt e true)) e0 = 0 := by
  intro l
  induction l with
  | nil => intro _; rfl
  | cons a as ih =>
    intro h
    have ha : ¬(a == e0) := by
      intro hbeq
      exact h (List.mem_cons.mpr (Or.inl (eq_of_beq hbeq).symm))
    have has : e0 ∉ as := fun hmem => h (List.mem_cons.mpr (Or.inr hmem))
    simp only [List.map_cons, attemptsOn, List.filter, isAttemptOn]
    simp only [Bool.eq_false_iff.mpr ha]
    exact ih has

theorem get_not_mem_take :
    ∀ (l : List String) (n : Nat) (h : n < l.length),
      l.Nodup → l.get ⟨n, h⟩ ∉ l.take n := by
  intro l
  induction l with
  | nil => intro n h; exact absurd h (Nat.not_lt_zero n)
  | cons a as ih =>
    intro n h hnd
    have hnd2 := List.nodup_cons.mp hnd
    cases n with
    | zero => simp
    | succ m =>
      have hm : m < as.length := Nat.lt_of_succ_lt_succ h
      simp only [List.take_succ_cons, List.get_cons_succ]
      intro hmem
      rcases List.mem_cons.mp hmem with heq | hmem2
      · exact hnd2.1 (heq ▸ List.get_mem as m hm)
      · exact ih m hm hnd2.2 hmem2

/-- Claim C2: for every extracted block with a present bbox (l,t,r,b) and
image pixel dimensions (W,H), `process` outputs a formatted block whose
position is left = l*W, top = t*H, width = (r-l)*W, height = (b-t)*H; for
every block with an absent bbox it outputs a null position; and on the
end-to-end scenario (200×100 image, one block of type "title", content
"Hello", bbox (0.1, 0.2, 0.5, 0.4)) the result serialized into the single
output field "result" is, as a JSON document, a "boxes" array holding one
object with type "title", text "Hello" and position left 20.0, top 20.0,
width 80.0, height 20.0 (equality of JSON values; the whitespace
`json.dumps` inserts is not part of the JSON document). -/
theorem claim_C2_position_formula_and_end_to_end :
    (∀ (W H : Nat) (blk : RawBlock) (l t r b : ℚ),
        blk.bbox? = some (l, t, r, b) →
        (formatBlock W H blk).lookup "position" =
          some (Json.obj
            [("left", Json.num (l * (W : ℚ))),
             ("top", Json.num (t * (H : ℚ))),
             ("width", Json.num ((r - l) * (W : ℚ))),
             ("height", Json.num ((b - t) * (H : ℚ)))])) ∧
    (∀ (W H : Nat) (blk : RawBlock),
        blk.bbox? = none →
        (formatBlock W H blk).lookup "position" = some Json.null) ∧
    (∀ (decode : List Nat → Except ProcessError DecodedImage)
        (extract : DecodedImage → List RawBlock) (raw : List Nat)
        (image : DecodedImage), decode raw = Except.ok image →
        process decode extract raw =
          Except.ok ("result",
            Json.obj [("boxes",
              Json.arr ((extract image).map
                (formatBlock image.width image.height)))])) ∧
    process (fun _ => Except.ok ⟨200, 100, []⟩)
        (fun _ => [⟨some "title", some "Hello",
                    some (1/10, 1/5, 1/2, 2/5), []⟩]) [] =
      Except.ok ("result",
        Json.obj [("boxes", Json.arr
          [Json.obj
            [("type", Json.str "title"),
             ("text", Json.str "Hello"),
             ("position", Json.obj
               [("left", Json.num 20), ("top", Json.num 20),
                ("width", Json.num 80), ("height", Json.num 20)])]])]) := by
  refine ⟨?_, ?_, ?_, ?_⟩
  · intro W H blk l t r b h
    simp [formatBlock, h, Json.lookup, lookupFields]
  · intro W H blk h
    simp [formatBlock, h, Json.lookup, lookupFields]
  · intro decode extract raw image h
    simp [process, h]
  · norm_num [process, formatBlock]

/-- Witness for claim C2's theorem: its first part instantiated at the
end-to-end block and a 200×100 image. -/
theorem claim_C2_position_formula_and_end_to_end_witness :
    (formatBlock 200 100
        ⟨some "title", some "Hello", some (1/10, 1/5, 1/2, 2/5), []⟩).lookup
        "position" =
      some (Json.obj
        [("left", Json.num ((1/10 : ℚ) * ((200 : Nat) : ℚ))),
         ("top", Json.num ((1/5 : ℚ) * ((100 : Nat) : ℚ))),
         ("width", Json.num (((1/2 : ℚ) - 1/10) * ((200 : Nat) : ℚ))),
         ("height", Json.num (((2/5 : ℚ) - 1/5) * ((100 : Nat) : ℚ)))]) :=
  claim_C2_position_formula_and_end_to_end.1 200 100
    ⟨some "title", some "Hello", some (1/10, 1/5, 1/2, 2/5), []⟩
    (1/10) (1/5) (1/2) (2/5) rfl

/-- Claim C4: the output block's position is non-null exactly when the
source block's bbox was present: a present bbox (a 4-tuple, hence truthy)
yields a non-null position object, and an absent bbox yields a null
position. -/
theorem claim_C4_position_present_iff_bbox_present :
    ∀ (W H : Nat) (blk : RawBlock),
      (∀ q, blk.bbox? = some q →
        ∃ p, (formatBlock W H blk).lookup "position" = some p ∧
          p ≠ Json.null) ∧
      (blk.bbox? = none →
        (formatBlock W H blk).lookup "position" = some Json.null) := by
  intro W H blk
  constructor
  · rintro ⟨l, t, r, b⟩ h
    refine ⟨Json.obj
        [("left", Json.num (l * (W : ℚ))),
         ("top", Json.num (t * (H : ℚ))),
         ("width", Json.num ((r - l) * (W : ℚ))),
         ("height", Json.num ((b - t) * (H : ℚ)))], ?_, ?_⟩
    · simp [formatBlock, h, Json.lookup, lookupFields]
    · exact fun hc => Json.noConfusion hc
  · intro h
    simp [formatBlock, h, Json.lookup, lookupFields]

/-- Witness for claim C4's theorem: at a bbox-less block, position is
null. -/
theorem claim_C4_position_present_iff_bbox_present_witness :
    (formatBlock 10 20 ⟨some "line", none, none, []⟩).lookup "position" =
      some Json.null :=
  (claim_C4_position_present_iff_bbox_present 10 20
    ⟨some "line", none, none, []⟩).2 rfl

/-- Claim C5 as stated is false on the code: no clamping is performed, so
an inverted bbox gives a negative width.  Concretely, for the block with
bbox (0.5, 0.2, 0.1, 0.4) on a 10×10 image the computed width is
(0.1 - 0.5) * 10 = -4 < 0, refuting `width ≥ 0`. -/
theorem claim_C5_counterexample :
    (formatBlock 10 10
        ⟨some "t", some "c", some (1/2, 1/5, 1/10, 2/5), []⟩).lookup
        "position" =
      some (Json.obj
        [("left", Json.num 5), ("top", Json.num 2),
         ("width", Json.num (-4)), ("height", Json.num 2)]) ∧
    (-4 : ℚ) < 0 := by
  constructor
  · have hA : ¬("type" : String) = "position" := by decide
    have hB : ¬("text" : String) = "position" := by decide
    norm_num [formatBlock, Json.lookup, lookupFields, hA, hB]
  · norm_num

/-- Claim C5 amended: for every block with a present bbox (l,t,r,b) and
every image dimensions, the computed width is (r-l)*W and the height is
(b-t)*H, applied as-is with no clamping or rejection; these are
nonnegative whenever the bbox is not inverted (l ≤ r, t ≤ b), and are
negative for an inverted bbox and positive dimensions. -/
theorem claim_C5_amended_no_clamping :
    ∀ (W H : Nat) (blk : RawBlock) (l t r b : ℚ),
      blk.bbox? = some (l, t, r, b) →
      (formatBlock W H blk).lookup "position" =
        some (Json.obj
          [("left", Json.num (l * (W : ℚ))),
           ("top", Json.num (t * (H : ℚ))),
           ("width", Json.num ((r - l) * (W : ℚ))),
           ("height", Json.num ((b - t) * (H : ℚ)))]) ∧
      (l ≤ r → 0 ≤ (r - l) * (W : ℚ)) ∧
      (t ≤ b → 0 ≤ (b - t) * (H : ℚ)) ∧
      (r < l → 0 < W → (r - l) * (W : ℚ) < 0) ∧
      (b < t → 0 < H → (b - t) * (H : ℚ) < 0) := by
  intro W H blk l t r b h
  refine ⟨?_, ?_, ?_, ?_, ?_⟩
  · simp [formatBlock, h, Json.lookup, lookupFields]
  · intro hlr
    exact mul_nonneg (by linarith) (Nat.cast_nonneg W)
  · intro htb
    exact mul_nonneg (by linarith) (Nat.cast_nonneg H)
  · intro hrl hW
    exact mul_neg_of_neg_of_pos (by linarith) (by exact_mod_cast hW)
  · intro hbt hH
    exact mul_neg_of_neg_of_pos (by linarith) (by exact_mod_cast hH)

/-- Witness for the amended claim C5: the inverted bbox of the
counterexample indeed yields a negative width. -/
theorem claim_C5_amended_no_clamping_witness :
    ((1/10 : ℚ) - 1/2) * ((10 : Nat) : ℚ) < 0 :=
  (claim_C5_amended_no_clamping 10 10
    ⟨some "t", some "c", some (1/2, 1/5, 1/10, 2/5), []⟩
    (1/2) (1/5) (1/10) (2/5) rfl).2.2.2.1 (by norm_num) (by norm_num)

/-- Claim C6: when the input bytes do not decode as an image, `process`
fails with that decode error, which propagates to the caller (the code
catches nothing); no result payload is produced, and the extraction model
is never invoked — the outcome is independent of the extraction
function. -/
theorem claim_C6_decode_failure_surfaced :
    ∀ (decode : List Nat → Except ProcessError DecodedImage)
      (extract : DecodedImage → List RawBlock) (raw : List Nat)
      (e : ProcessError), decode raw = Except.error e →
      process decode extract raw = Except.error e ∧
      (∀ extract2 : DecodedImage → List RawBlock,
        process decode extract2 raw = process decode extract raw) := by
  intro decode extract raw e h
  constructor
  · simp [process, h]
  · intro extract2
    simp [process, h]

/-- Witness for claim C6's theorem: a decoder rejecting everything makes
`process` fail with the decode error. -/
theorem claim_C6_decode_failure_surfaced_witness :
    process (fun _ => Except.error ProcessError.decodeError)
        (fun _ => []) [] =
      Except.error ProcessError.decodeError :=
  (claim_C6_decode_failure_surfaced
    (fun _ => Except.error ProcessError.decodeError) (fun _ => []) []
    ProcessError.decodeError rfl).1

/-- Claim C10: every formatted block has exactly the keys type, text,
position (in that order); any extra keys of the raw block are dropped
(the output does not depend on them); and a missing type or content key
defaults to the empty string, whether or not a bbox is present. -/
theorem claim_C10_exactly_three_output_fields :
    ∀ (W H : Nat) (blk : RawBlock),
      (formatBlock W H blk).keys = ["type", "text", "position"] ∧
      (blk.type? = none →
        (formatBlock W H blk).lookup "type" = some (Json.str "")) ∧
      (blk.content? = none →
        (formatBlock W H blk).lookup "text" = some (Json.str "")) ∧
      (∀ extra2 : List (String × Json),
        formatBlock W H ⟨blk.type?, blk.content?, blk.bbox?, extra2⟩ =
          formatBlock W H blk) := by
  intro W H blk
  rcases blk with ⟨ty, co, bb, ex⟩
  rcases bb with _ | ⟨l, t, r, b⟩
  · refine ⟨by simp [formatBlock, Json.keys], ?_, ?_, ?_⟩
    · intro h
      subst h
      simp [formatBlock, Json.lookup, lookupFields]
    · intro h
      subst h
      simp [formatBlock, Json.lookup, lookupFields]
    · intro extra2
      simp [formatBlock]
  · refine ⟨by simp [formatBlock, Json.keys], ?_, ?_, ?_⟩
    · intro h
      subst h
      simp [formatBlock, Json.lookup, lookupFields]
    · intro h
      subst h
      simp [formatBlock, Json.lookup, lookupFields]
    · intro extra2
      simp [formatBlock]

/-- Witness for claim C10's theorem: a block with no type key gets the
empty-string type. -/
theorem claim_C10_exactly_three_output_fields_witness :
    (formatBlock 5 5 ⟨none, some "x", none, []⟩).lookup "type" =
      some (Json.str "") :=
  (claim_C10_exactly_three_output_fields 5 5 ⟨none, some "x", none, []⟩).2.1 rfl

/-- Claim C1 fails on the code: `retries` is initialized once, before the
`for engine_url in settings.engine_urls` loop, so the retry budget is
shared between engines instead of per-engine.  Concretely, with engines
e1 and e2, budget 3, and registration permanently failing on e1 (while
e2 would succeed), e1's failures exhaust the whole budget (3 attempts)
and e2 is then attempted 0 times — not the full budget of 3 the claim
requires. -/
theorem claim_C1_second_engine_starved :
    attemptsOn (announce (fun e _ => e == "e2") ⟨3, 1, ["e1", "e2"]⟩) "e1" = 3 ∧
    attemptsOn (announce (fun e _ => e == "e2") ⟨3, 1, ["e1", "e2"]⟩) "e2" = 0 := by
  decide

/-- Claim C3: with retry budget N > 0 and a registration call that fails
on every attempt, the announcement loop for the engine performs exactly N
attempts, never succeeds (terminal Abandoned state: no successful attempt
in the whole trace), and exactly one warning-level diagnostic is emitted,
reporting the configured retry count N.  The `announce` coroutine then
runs to completion (the model is a total function), so the worker keeps
operating after abandonment. -/
theorem claim_C3_retry_exhaustion :
    ∀ (N d : Nat) (e : String) (rest : List String)
      (oracle : String → Nat → Bool),
      0 < N → (∀ k, oracle e k = false) →
      attemptsOn (announce oracle ⟨N, d, e :: rest⟩) e = N ∧
      AnnounceEvent.attempt e true ∉ announce oracle ⟨N, d, e :: rest⟩ ∧
      warningCount (announce oracle ⟨N, d, e :: rest⟩) = 1 ∧
      AnnounceEvent.warning N ∈ announce oracle ⟨N, d, e :: rest⟩ := by
  intro N d e rest oracle hN hf
  have hflags := announceLoop_fail_flags oracle e d N hf N 0
  have htrace : announce oracle ⟨N, d, e :: rest⟩ =
      (announceLoop oracle e d N 0 N).1 := by
    simp [announce, announceGo, hflags.2, announceGo_zero]
  refine ⟨?_, ?_, ?_, ?_⟩ <;> rw [htrace]
  · exact announceLoop_fail_attemptsOn oracle e d N hf N 0
  · exact announceLoop_fail_no_success oracle e d N hf N 0
  · exact announceLoop_fail_warningCount oracle e d N hf N 0 hN
  · exact announceLoop_fail_warning_mem oracle e d N hf N 0 hN

/-- Witness for claim C3's theorem: budget 2, one engine, all calls
fail. -/
theorem claim_C3_retry_exhaustion_witness :
    attemptsOn (announce (fun _ _ => false) ⟨2, 5, ["a"]⟩) "a" = 2 ∧
    AnnounceEvent.attempt "a" true ∉ announce (fun _ _ => false) ⟨2, 5, ["a"]⟩ ∧
    warningCount (announce (fun _ _ => false) ⟨2, 5, ["a"]⟩) = 1 ∧
    AnnounceEvent.warning 2 ∈ announce (fun _ _ => false) ⟨2, 5, ["a"]⟩ :=
  claim_C3_retry_exhaustion 2 5 "a" [] (fun _ _ => false)
    (by decide) (fun _ => rfl)

/-- Claim C7: on shutdown, every configured engine target receives
exactly one deregistration attempt, in configuration order, whatever the
outcomes are — so one target's failure never prevents the remaining
targets' attempts; a failed attempt is logged.  (`graceful_shutdown`
itself lives in the external `common_code` package and is modelled from
the spec as a non-raising best-effort call; the loop is a total function,
so process exit is never blocked.) -/
theorem claim_C7_shutdown_one_dereg_per_engine :
    ∀ (ok : String → Bool) (engines : List String),
      deregTargets (shutdownLoop ok engines) = engines ∧
      (∀ e, e ∈ engines → ok e = false →
        ShutdownEvent.logFailure e ∈ shutdownLoop ok engines) := by
  intro ok engines
  induction engines with
  | nil =>
    exact ⟨rfl, fun e h _ => absurd h (List.not_mem_nil e)⟩
  | cons a rest ih =>
    constructor
    · cases h : ok a <;>
        simp [shutdownLoop, gracefulShutdown, h, deregTargets,
          List.filterMap_append] <;>
        simpa [deregTargets] using ih.1
    · intro e hmem hfail
      rcases List.mem_cons.mp hmem with heq | hmem2
      · subst heq
        simp [shutdownLoop, gracefulShutdown, hfail]
      · exact List.mem_append.mpr (Or.inr (ih.2 e hmem2 hfail))

/-- Witness for claim C7's theorem: two engines, both deregistrations
failing — both are still attempted, in order, and the failure is
logged. -/
theorem claim_C7_shutdown_one_dereg_per_engine_witness :
    deregTargets (shutdownLoop (fun _ => false) ["a", "b"]) = ["a", "b"] ∧
    ShutdownEvent.logFailure "a" ∈ shutdownLoop (fun _ => false) ["a", "b"] :=
  ⟨(claim_C7_shutdown_one_dereg_per_engine (fun _ => false) ["a", "b"]).1,
   (claim_C7_shutdown_one_dereg_per_engine (fun _ => false) ["a", "b"]).2
     "a" (by decide) rfl⟩

/-- Claim C8 fails on the code: the inter-retry delay is `time.sleep`, a
synchronous blocking call, inside the async `announce` coroutine.  While
it runs, the single cooperative event loop can schedule nothing else, so
request serving and the other engines' retry loops ARE blocked during the
delay (the registration round-trip itself is awaited and does suspend).
Concretely, with one engine whose registration keeps failing and delay 5,
the announce trace contains blocking sleeps. -/
theorem claim_C8_blocking_sleep_in_retry_loop :
    AnnounceEvent.blockingSleep 5 ∈ announce (fun _ _ => false) ⟨2, 5, ["e1"]⟩ := by
  decide

/-- Claim C9: the single `retries` counter is shared by all engines and
decremented on every attempt, successful ones included, so (a) the total
number of registration attempts over the whole run, summed over all
engines, never exceeds the configured budget, for every outcome oracle;
and (b) with more (distinct) engines than budget, some engine is never
attempted even when every registration call succeeds. -/
theorem claim_C9_shared_attempt_budget :
    ∀ (oracle : String → Nat → Bool) (s : AnnounceSettings),
      totalAttempts (announce oracle s) ≤ s.engine_announce_retries ∧
      ((∀ e k, oracle e k = true) → s.engine_urls.Nodup →
        s.engine_announce_retries < s.engine_urls.length →
        ∃ e, e ∈ s.engine_urls ∧ attemptsOn (announce oracle s) e = 0) := by
  intro oracle s
  constructor
  · exact announceGo_totalAttempts_le oracle _ _ s.engine_urls
      s.engine_announce_retries
  · intro hs hnd hlt
    refine ⟨s.engine_urls.get ⟨s.engine_announce_retries, hlt⟩,
      List.get_mem _ _ _, ?_⟩
    simp only [announce]
    rw [announceGo_success oracle _ _ hs]
    exact attemptsOn_map_success _ _
      (get_not_mem_take s.engine_urls _ hlt hnd)

/-- Witness for claim C9's theorem: two engines, budget 1, registration
always succeeding — at most one attempt happens and some engine is never
attempted. -/
theorem claim_C9_shared_attempt_budget_witness :
    totalAttempts (announce (fun _ _ => true) ⟨1, 0, ["a", "b"]⟩) ≤ 1 ∧
    (∃ e, e ∈ (["a", "b"] : List String) ∧
      attemptsOn (announce (fun _ _ => true) ⟨1, 0, ["a", "b"]⟩) e = 0) :=
  ⟨(claim_C9_shared_attempt_budget (fun _ _ => true) ⟨1, 0, ["a", "b"]⟩).1,
   (claim_C9_shared_attempt_budget (fun _ _ => true) ⟨1, 0, ["a", "b"]⟩).2
     (fun _ _ => rfl) (by decide) (by decide)⟩

end MinerU
